import Mathlib

/-!
Shallow embedding of a falling-block puzzle engine (TypeScript sources:
types.ts, states.ts, shapes.ts, utils.ts) together with proofs about its
state-transition functions.

Conventions of the embedding:
* JS numbers used as integer coordinates/scores are modelled as `Int`;
  the RNG values in [-1, 1] are modelled as `Rat`.  Every theorem below
  exercises this rational arithmetic only at inputs where IEEE-754 doubles
  are exact; the RNG hash itself is an exact-arithmetic idealization that
  diverges from the double-precision source for large seeds (see its doc
  comment), and no theorem depends on its value at such a seed.
* JS array index reads `a[i]` are modelled with `List.getD i default`;
  every theorem below only exercises in-bounds reads, where the two agree
  (an out-of-bounds JS read yields undefined and crashes downstream).
* `ReadonlyArray` becomes `List`; `Shape | null` becomes `Option Shape`.
* The `tulips` field declared on the TS `State` type is never initialised
  nor read anywhere in the sources, so it is omitted here.
-/

/-! ## Constants (types.ts) -/

def CANVAS_WIDTH : Int := 200
def CANVAS_HEIGHT : Int := 400
def PREVIEW_WIDTH : Int := 160
def PREVIEW_HEIGHT : Int := 80
def GRID_WIDTH : Nat := 10
def GRID_HEIGHT : Nat := 20

/-- Block.WIDTH = CANVAS_WIDTH / GRID_WIDTH = 20. -/
def BLOCK_WIDTH : Int := 20

/-- Block.HEIGHT = CANVAS_HEIGHT / GRID_HEIGHT = 20. -/
def BLOCK_HEIGHT : Int := 20

def SPAWN_CANVAS_X : Int := CANVAS_WIDTH / 2 - 2 * BLOCK_WIDTH
def SPAWN_CANVAS_Y : Int := 0
def SPAWN_PREVIEW_X : Int := PREVIEW_WIDTH / 2 - 2 * BLOCK_WIDTH
def SPAWN_PREVIEW_Y : Int := 0

/-! ## RNG (utils.ts) -/

namespace RNG

/-- LCG modulus 2^31. -/
def m : Nat := 0x80000000

def a : Nat := 1103515245

def c : Nat := 12345

/-- hash(seed) = (a * seed + c) % m, as exact integer arithmetic.  This is
an idealization: JS evaluates the expression in IEEE-754 doubles, which
round the product a * seed once it exceeds 2^53 (seeds above roughly
8.16e6, including every iterate of the in-game streams), so hash values
reachable in the running program are not characterized by this model.  No
theorem below rests on the value of this function at any such seed. -/
def hash (seed : Nat) : Nat := (a * seed + c) % m

/-- scale(hash) = 2 * hash / (m - 1) - 1, mapping [0, m) into [-1, 1]. -/
def scale (h : Nat) : Rat := 2 * (h : Rat) / ((m : Rat) - 1) - 1

/-- scaleToRange(hash, from, to) = floor((hash + 1) / 2 * (to - from + 1) + from).
(Rat.floor is the mathematical floor of a rational, as JS Math.floor.) -/
def scaleToRange (v : Rat) (lo hi : Int) : Int :=
  Rat.floor ((v + 1) / 2 * ((hi : Rat) - (lo : Rat) + 1) + (lo : Rat))

end RNG

/-! ## Matrix utilities (utils.ts) -/

/-- Rows-of-cells matrix of JS numbers. -/
abbrev NumbersMatrix := List (List Int)

/-- rotateMatrix: rotated[i][j] = matrix[n - j - 1][i] with n = matrix.length. -/
def rotateMatrix (matrix : NumbersMatrix) : NumbersMatrix :=
  let n := matrix.length
  matrix.enum.map (fun p =>
    p.2.enum.map (fun q => (matrix.getD (n - q.1 - 1) []).getD p.1 0))

/-- rotateMatrixNTimes(times)(matrix): applies rotateMatrix (times % 4) times. -/
def rotateMatrixNTimes (times : Nat) (matrix : NumbersMatrix) : NumbersMatrix :=
  (rotateMatrix)^[times % 4] matrix

/-- replace(array, newItem, index) = array.slice(0, index) ++ [newItem] ++ array.slice(index + 1). -/
def replace {α : Type} (array : List α) (newItem : α) (index : Nat) : List α :=
  array.take index ++ [newItem] ++ array.drop (index + 1)

/-- Logical grid position (block coordinate divided by block size). -/
structure GridPosition where
  x : Int
  y : Int
deriving DecidableEq, Repr

/-- Body of the reduce inside updateGrid: mark a 1 at one position (JS indexes the
arrays with the raw numbers; the states quantified over only carry in-range
non-negative coordinates, where toNat is the identity embedding). -/
def markPos (accGrid : NumbersMatrix) (p : GridPosition) : NumbersMatrix :=
  replace accGrid (replace (accGrid.getD p.y.toNat []) 1 p.x.toNat) p.y.toNat

/-- updateGrid(oldGrid, positions): fold marking a 1 at each position. -/
def updateGrid (oldGrid : NumbersMatrix) (positions : List GridPosition) : NumbersMatrix :=
  positions.foldl markPos oldGrid

/-- constructGrid(width, height, positions): height rows of width zeros, then marks. -/
def constructGrid (width height : Nat) (positions : List GridPosition) : NumbersMatrix :=
  updateGrid (List.replicate height (List.replicate width 0)) positions

/-- findFullRowsOfGrid: indexes of rows whose cells are all 1, in row order. -/
def findFullRowsOfGrid (grid : NumbersMatrix) : List Nat :=
  grid.enum.foldl
    (fun accArray p => if p.2.all (fun cell => cell == 1) then accArray ++ [p.1] else accArray)
    []

/-! ## Data model (types.ts) -/

structure SingleBlock where
  x : Int
  y : Int
  width : Int
  height : Int
deriving DecidableEq, Repr

structure ShapeType where
  name : String
  matrix : NumbersMatrix
  color : String
deriving DecidableEq, Repr

structure Shape where
  id : String
  x : Int
  y : Int
  angle : Int
  type : ShapeType
  blocks : List SingleBlock
  width : Int
  height : Int
  fix : Bool
deriving DecidableEq, Repr

structure Statistics where
  level : Int
  highScore : Int
  score : Int
deriving DecidableEq, Repr

structure Movement where
  deltaX : Int
  deltaY : Int
deriving DecidableEq, Repr

structure State where
  gameEnd : Bool
  currentShape : Option Shape
  nextShape : Shape
  fixedShapes : List Shape
  stats : Statistics
  dropRate : Int
  obstacles : List Shape
  levelUp : Bool
deriving DecidableEq, Repr

/-! ## Shape catalog and geometry (shapes.ts) -/

def ALL_SHAPE_TYPES : List ShapeType := [
  { name := "O",
    matrix := [[0, 0, 0, 0], [0, 1, 1, 0], [0, 1, 1, 0], [0, 0, 0, 0]],
    color := "green" },
  { name := "L",
    matrix := [[1, 0, 0], [1, 1, 1], [0, 0, 0]],
    color := "blue" },
  { name := "J",
    matrix := [[0, 0, 1], [1, 1, 1], [0, 0, 0]],
    color := "pink" },
  { name := "S",
    matrix := [[0, 0, 0], [0, 1, 1], [1, 1, 0]],
    color := "red" },
  { name := "Z",
    matrix := [[0, 0, 0], [1, 1, 0], [0, 1, 1]],
    color := "purple" },
  { name := "I",
    matrix := [[0, 0, 1, 0], [0, 0, 1, 0], [0, 0, 1, 0], [0, 0, 1, 0]],
    color := "orange" },
  { name := "T",
    matrix := [[0, 0, 0], [1, 1, 1], [0, 1, 0]],
    color := "yellow" }
]

def ALL_SHAPE_ANGLES : List Int := [0, 90, 180, 270]

/-- renderBlocksFromShape: rotate the base matrix (angle / 90) % 4 times, then
emit one block per cell equal to 1 at (x + col * BW, y + row * BH). -/
def renderBlocksFromShape (shape : Shape) : List SingleBlock :=
  let matrix := shape.type.matrix
  let rotateCount := ((shape.angle / 90) % 4).toNat
  let rotatedMatrix := rotateMatrixNTimes rotateCount matrix
  rotatedMatrix.enum.flatMap (fun p =>
    p.2.enum.filterMap (fun q =>
      if q.2 = 1 then
        some { x := shape.x + q.1 * BLOCK_WIDTH
               y := shape.y + p.1 * BLOCK_HEIGHT
               width := BLOCK_WIDTH
               height := BLOCK_HEIGHT }
      else none))

/-- createShape(randomPair, id): random type and angle from the catalog,
position (0,0), empty blocks array. -/
def createShape (randomPair : List Rat) (id : Int) : Shape :=
  let randomType : ShapeType :=
    ALL_SHAPE_TYPES.getD
      (RNG.scaleToRange (randomPair.getD 0 0) 0 ((ALL_SHAPE_TYPES.length : Int) - 1)).toNat
      { name := "undefined", matrix := [], color := "undefined" }
  let randomAngle : Int :=
    ALL_SHAPE_ANGLES.getD
      (RNG.scaleToRange (randomPair.getD 1 0) 0 ((ALL_SHAPE_ANGLES.length : Int) - 1)).toNat
      0
  { id := "shape" ++ toString id
    x := 0
    y := 0
    angle := randomAngle
    type := randomType
    blocks := []
    width := BLOCK_WIDTH * ((randomType.matrix.getD 0 []).length : Int)
    height := BLOCK_HEIGHT * (randomType.matrix.length : Int)
    fix := false }

/-- createObstacle(id, x, y): a fixed 1x1 grey shape. -/
def createObstacle (id : Int) (x y : Int) : Shape :=
  { id := "shape" ++ toString id
    x := x
    y := y
    angle := 0
    type := { name := "Obstacle", matrix := [[1]], color := "grey" }
    blocks := []
    width := BLOCK_WIDTH
    height := BLOCK_HEIGHT
    fix := true }

/-- All blocks of the fixed shapes of a state. -/
def allFixedBlocks (s : State) : List SingleBlock :=
  s.fixedShapes.flatMap (fun shape => shape.blocks)

/-- canUpdate condition of updateShape: every candidate block inside the
canvas, no coincidence with a fixed block. -/
def canUpdateProp (s : State) (newBlocks : List SingleBlock) : Prop :=
  ((∀ b ∈ newBlocks, 0 ≤ b.x ∧ b.x < CANVAS_WIDTH ∧ b.y < CANVAS_HEIGHT) ∧
    ¬ ∃ b1 ∈ newBlocks, ∃ b2 ∈ allFixedBlocks s, b1.x = b2.x ∧ b1.y = b2.y)

instance (s : State) (newBlocks : List SingleBlock) : Decidable (canUpdateProp s newBlocks) := by
  unfold canUpdateProp; infer_instance

/-- isFix condition of updateShape: some candidate block sits one block
height above a fixed block, or some candidate block is on the bottom row. -/
def isFixProp (s : State) (newBlocks : List SingleBlock) : Prop :=
  (∃ b1 ∈ newBlocks, ∃ b2 ∈ allFixedBlocks s, b1.x = b2.x ∧ b1.y = b2.y - BLOCK_HEIGHT) ∨
    ∃ b ∈ newBlocks, b.y = CANVAS_HEIGHT - BLOCK_HEIGHT

instance (s : State) (newBlocks : List SingleBlock) : Decidable (isFixProp s newBlocks) := by
  unfold isFixProp; infer_instance

/-- updateShape(s, newShape): reject (returning the previous currentShape)
when the candidate is already fixed or canUpdate fails; otherwise accept,
recomputing blocks and the fix flag. -/
def updateShape (s : State) (newShape : Shape) : Option Shape :=
  if newShape.fix then s.currentShape
  else if canUpdateProp s (renderBlocksFromShape newShape) then
    some { newShape with
           blocks := renderBlocksFromShape newShape
           fix := decide (isFixProp s (renderBlocksFromShape newShape)) }
  else s.currentShape

/-- updateStateWithNewShape(s, newShape): no-op when gameEnd or the update
returned null; settles the shape into fixedShapes when it came back fixed.
(The source computes updateShape before testing gameEnd; updateShape is
pure, so hoisting the test is observationally identical.) -/
def updateStateWithNewShape (s : State) (newShape : Shape) : State :=
  if s.gameEnd then s
  else
    match updateShape s newShape with
    | none => s
    | some updatedShape =>
      if updatedShape.fix then
        { s with currentShape := none, fixedShapes := s.fixedShapes ++ [updatedShape] }
      else
        { s with currentShape := some updatedShape }

/-- kickShapeLeftWall: if the leftmost block x is at most one block width,
translate the shape to x = 0 (offset = -x).  The reduce over blocks with
Math.min and initial Infinity is List.minimum in WithTop Int. -/
def kickShapeLeftWall (shape : Shape) : Shape :=
  let leftMostBlockX := (shape.blocks.map (fun b => b.x)).minimum
  let offset := -shape.x
  if leftMostBlockX ≤ (BLOCK_WIDTH : WithTop Int) then { shape with x := shape.x + offset }
  else shape

/-- kickShapeRightWall: if the rightmost block x is at least
CANVAS_WIDTH - 2 * BLOCK_WIDTH, translate so x + width = CANVAS_WIDTH. -/
def kickShapeRightWall (shape : Shape) : Shape :=
  let rightMostBlockX := (shape.blocks.map (fun b => b.x)).maximum
  let offset := CANVAS_WIDTH - (shape.x + shape.width)
  if ((CANVAS_WIDTH - 2 * BLOCK_WIDTH : Int) : WithBot Int) ≤ rightMostBlockX then
    { shape with x := shape.x + offset }
  else shape

/-- rotateKickShape: left-wall kick, then right-wall kick. -/
def rotateKickShape (shape : Shape) : Shape :=
  kickShapeRightWall (kickShapeLeftWall shape)

/-! ## Actions and reducer (states.ts) -/

/-- getGridPositionsFromState: block coordinates scaled down by block size.
All fixed blocks in the states the theorems quantify over sit at exact
multiples of the block size, where Int division agrees with JS division. -/
def getGridPositionsFromState (s : State) : List GridPosition :=
  (s.fixedShapes.flatMap (fun shape => shape.blocks)).map
    (fun b => { x := b.x / BLOCK_WIDTH, y := b.y / BLOCK_HEIGHT })

/-- AddShapeAction.apply. -/
def AddShapeAction (randomPair : List Rat) (s : State) : State :=
  let newShape := createShape randomPair
    ((s.fixedShapes.length : Int) - (s.obstacles.length : Int) + 2)
  { s with
    currentShape := some { s.nextShape with x := SPAWN_CANVAS_X, y := SPAWN_CANVAS_Y }
    nextShape := { newShape with x := SPAWN_PREVIEW_X, y := SPAWN_PREVIEW_Y } }

/-- MoveAction(movement).apply. -/
def MoveAction (movement : Movement) (s : State) : State :=
  match s.currentShape with
  | none => s
  | some oldShape =>
    updateStateWithNewShape s
      { oldShape with x := oldShape.x + movement.deltaX, y := oldShape.y + movement.deltaY }

/-- RotateAction.apply. -/
def RotateAction (s : State) : State :=
  match s.currentShape with
  | none => s
  | some shape =>
    updateStateWithNewShape s (rotateKickShape { shape with angle := (shape.angle + 90) % 360 })

/-- ScoreAction.apply. -/
def ScoreAction (s : State) : State :=
  let currentGrid := constructGrid GRID_WIDTH GRID_HEIGHT (getGridPositionsFromState s)
  let fullRowsYCoordinates : List Int :=
    (findFullRowsOfGrid currentGrid).map (fun index => (Int.ofNat index) * BLOCK_HEIGHT)
  let newFixedShapes := s.fixedShapes.map (fun shape =>
    let adjustedBlocks := (shape.blocks.filter
        (fun b => !(fullRowsYCoordinates.contains b.y))).map
      (fun block =>
        let countClearRowsBelowBlock :=
          (fullRowsYCoordinates.filter (fun clearRow => decide (block.y < clearRow))).length
        { block with y := block.y + block.height * countClearRowsBelowBlock })
    { shape with blocks := adjustedBlocks })
  let newScore := s.stats.score + (fullRowsYCoordinates.length : Int) * s.stats.level
  { s with stats := { s.stats with score := newScore }, fixedShapes := newFixedShapes }

/-- EndGameAction.apply. -/
def EndGameAction (s : State) : State :=
  match s.currentShape with
  | none => s
  | some shape =>
    { s with gameEnd := decide (∀ b ∈ shape.blocks, b.y - b.height < 0) }

/-- CheckLevelUpAction.apply. -/
def CheckLevelUpAction (s : State) : State :=
  { s with levelUp := decide (s.stats.level * 10 ≤ s.stats.score) }

/-- initialShape = createShape([0, 0], 1) placed at the preview spawn. -/
def initialShape : Shape :=
  { createShape [0, 0] 1 with x := SPAWN_PREVIEW_X, y := SPAWN_PREVIEW_Y }

def INITIAL_STATE : State :=
  { gameEnd := false
    currentShape := none
    nextShape := initialShape
    fixedShapes := []
    stats := { level := 1, highScore := 0, score := 0 }
    dropRate := BLOCK_HEIGHT
    obstacles := []
    levelUp := false }

/-- RestartGameAction.apply. -/
def RestartGameAction (s : State) : State :=
  if s.gameEnd then
    { INITIAL_STATE with
      stats :=
        { score := 0
          level := 1
          highScore := if s.stats.score < s.stats.highScore then s.stats.highScore else s.stats.score }
      gameEnd := false }
  else s

/-- NextLevelAction(randomPair).addObstacle. -/
def addObstacle (randomPair : List Rat) (s : State) : State :=
  let level := s.stats.level
  let scaleX := RNG.scaleToRange (randomPair.getD 0 0) 0 ((GRID_WIDTH : Int) - 1)
  let scaleY := RNG.scaleToRange (randomPair.getD 1 0) ((GRID_HEIGHT : Int) / 2) ((GRID_HEIGHT : Int) - 1)
  let actualX := scaleX * BLOCK_WIDTH
  let actualY := scaleY * BLOCK_HEIGHT
  let newObstacle := createObstacle (-((s.obstacles.length : Int) + 1)) actualX actualY
  let newObstaclesArray :=
    s.obstacles ++ [{ newObstacle with blocks := renderBlocksFromShape newObstacle }]
  { INITIAL_STATE with
    stats := { s.stats with level := level + 1 }
    fixedShapes := newObstaclesArray
    obstacles := newObstaclesArray }

/-- NextLevelAction(randomPair).apply. -/
def NextLevelAction (randomPair : List Rat) (s : State) : State :=
  if s.levelUp then addObstacle randomPair s else s

/-- TickAction.apply. -/
def TickAction (s : State) : State :=
  if s.gameEnd || s.levelUp then s
  else
    EndGameAction (ScoreAction (MoveAction { deltaX := 0, deltaY := s.dropRate }
      (CheckLevelUpAction s)))

/-- GameCycleAction(randomPair).apply. -/
def GameCycleAction (randomPair : List Rat) (s : State) : State :=
  if s.levelUp then NextLevelAction randomPair s
  else if s.gameEnd then RestartGameAction s
  else AddShapeAction randomPair s

/-! ## General helper lemmas -/

/-- Rectangular grid predicate: h rows, each of width w. -/
def Rect (h w : Nat) (g : NumbersMatrix) : Prop :=
  g.length = h ∧ ∀ row ∈ g, row.length = w

lemma length_rotateMatrix (m : NumbersMatrix) : (rotateMatrix m).length = m.length := by
  simp [rotateMatrix]

lemma rotateMatrix_row (m : NumbersMatrix) {i : Nat} (hi : i < m.length) :
    (rotateMatrix m).getD i [] =
      (m.getD i []).enum.map (fun q => (m.getD (m.length - q.1 - 1) []).getD i 0) := by
  have h1 : i < (rotateMatrix m).length := by simpa [length_rotateMatrix] using hi
  rw [List.getD_eq_getElem _ _ h1]
  simp only [rotateMatrix, List.getElem_map, List.getElem_enum]
  rw [List.getD_eq_getElem _ _ hi]

lemma rotateMatrix_row_length (m : NumbersMatrix) {i : Nat} (hi : i < m.length) :
    ((rotateMatrix m).getD i []).length = (m.getD i []).length := by
  rw [rotateMatrix_row m hi]
  simp

lemma rotateMatrix_entry (m : NumbersMatrix) {i j : Nat} (hi : i < m.length)
    (hj : j < (m.getD i []).length) :
    ((rotateMatrix m).getD i []).getD j 0 = (m.getD (m.length - j - 1) []).getD i 0 := by
  rw [rotateMatrix_row m hi]
  have h2 : j < ((m.getD i []).enum.map
      (fun q => (m.getD (m.length - q.1 - 1) []).getD i 0)).length := by
    simpa using hj
  rw [List.getD_eq_getElem _ _ h2]
  simp only [List.getElem_map, List.getElem_enum]

lemma getD_mem_of_lt {α : Type} (l : List α) (d : α) {i : Nat} (hi : i < l.length) :
    l.getD i d ∈ l := by
  rw [List.getD_eq_getElem _ _ hi]
  exact List.getElem_mem hi

lemma rect_rotateMatrix {n : Nat} {m : NumbersMatrix} (h : Rect n n m) :
    Rect n n (rotateMatrix m) := by
  obtain ⟨hlen, hrow⟩ := h
  refine ⟨by simpa [length_rotateMatrix] using hlen, ?_⟩
  intro row hr
  rw [List.mem_iff_getElem] at hr
  obtain ⟨i, hi, hrow_eq⟩ := hr
  have hi2 : i < m.length := by simpa [length_rotateMatrix] using hi
  have hgd : (rotateMatrix m).getD i [] = row := by
    rw [List.getD_eq_getElem _ _ hi]; exact hrow_eq
  rw [← hgd, rotateMatrix_row m hi2]
  simp only [List.length_map, List.enum_length]
  exact hrow _ (getD_mem_of_lt m [] hi2)

lemma matrix_ext {g₁ g₂ : NumbersMatrix} (hlen : g₁.length = g₂.length)
    (hrow : ∀ i, i < g₁.length → (g₁.getD i []).length = (g₂.getD i []).length)
    (hentry : ∀ i j, i < g₁.length → j < (g₁.getD i []).length →
      (g₁.getD i []).getD j 0 = (g₂.getD i []).getD j 0) : g₁ = g₂ := by
  apply List.ext_getElem hlen
  intro i h1 h2
  apply List.ext_getElem
  · have := hrow i h1
    rwa [List.getD_eq_getElem _ _ h1, List.getD_eq_getElem _ _ h2] at this
  · intro j hj1 hj2
    have := hentry i j h1 (by rwa [List.getD_eq_getElem _ _ h1])
    rwa [List.getD_eq_getElem _ _ h1, List.getD_eq_getElem _ _ h2,
      List.getD_eq_getElem _ _ hj1, List.getD_eq_getElem _ _ hj2] at this

lemma rotateMatrix_entry_sq {n : Nat} {m : NumbersMatrix} (h : Rect n n m)
    {i j : Nat} (hi : i < n) (hj : j < n) :
    ((rotateMatrix m).getD i []).getD j 0 = (m.getD (n - j - 1) []).getD i 0 := by
  obtain ⟨hlen, hrow⟩ := h
  have hi2 : i < m.length := by omega
  have hj2 : j < (m.getD i []).length := by
    rw [hrow _ (getD_mem_of_lt m [] hi2)]; exact hj
  rw [rotateMatrix_entry m hi2 hj2, hlen]

/-- C9: applying the clockwise rotation four times returns any square matrix,
and rotateMatrixNTimes 4 is the identity on every matrix (4 % 4 = 0 rotations). -/
theorem C9_rotate_four_times_id (m : NumbersMatrix)
    (hsq : ∀ row ∈ m, row.length = m.length) :
    rotateMatrix (rotateMatrix (rotateMatrix (rotateMatrix m))) = m ∧
    rotateMatrixNTimes 4 m = m := by
  constructor
  · have h0 : Rect m.length m.length m := ⟨rfl, hsq⟩
    have h1 := rect_rotateMatrix h0
    have h2 := rect_rotateMatrix h1
    have h3 := rect_rotateMatrix h2
    have h4 := rect_rotateMatrix h3
    apply matrix_ext
    · rw [h4.1]
    · intro i hi
      rw [h4.1] at hi
      have e4 := getD_mem_of_lt (rotateMatrix (rotateMatrix (rotateMatrix (rotateMatrix m))))
        ([] : List Int) (by rw [h4.1]; exact hi)
      have e0 := getD_mem_of_lt m ([] : List Int) hi
      rw [h4.2 _ e4, hsq _ e0]
    · intro i j hi hj
      rw [h4.1] at hi
      have hj2 : j < m.length := by
        have e4 := getD_mem_of_lt (rotateMatrix (rotateMatrix (rotateMatrix (rotateMatrix m))))
          ([] : List Int) (by rw [h4.1]; exact hi)
        rw [h4.2 _ e4] at hj
        exact hj
      have hb1 : m.length - j - 1 < m.length := by omega
      have hb2 : m.length - i - 1 < m.length := by omega
      rw [rotateMatrix_entry_sq h3 hi hj2,
        rotateMatrix_entry_sq h2 hb1 hi,
        rotateMatrix_entry_sq h1 hb2 hb1,
        rotateMatrix_entry_sq h0 (by omega : m.length - (m.length - j - 1) - 1 < m.length) hb2]
      congr 2 <;> omega
  · simp [rotateMatrixNTimes]

/-- C9 witness: the L-shape catalog matrix is square, and four rotations return it. -/
theorem C9_rotate_four_times_id_witness :
    rotateMatrix (rotateMatrix (rotateMatrix (rotateMatrix [[1, 0, 0], [1, 1, 1], [0, 0, 0]]))) =
      [[1, 0, 0], [1, 1, 1], [0, 0, 0]] ∧
    rotateMatrixNTimes 4 [[1, 0, 0], [1, 1, 1], [0, 0, 0]] = [[1, 0, 0], [1, 1, 1], [0, 0, 0]] :=
  C9_rotate_four_times_id [[1, 0, 0], [1, 1, 1], [0, 0, 0]] (by decide)

/-- scale maps every integer hash value below m - 1 strictly inside [-1, 1). -/
theorem RNG.scale_bounds (h : Nat) (hlt : h < RNG.m - 1) :
    -1 ≤ RNG.scale h ∧ RNG.scale h < 1 := by
  unfold RNG.scale RNG.m
  have h0 : (0 : Rat) ≤ (h : Rat) := by positivity
  have h1 : (h : Rat) < 2147483647 := by
    have : h < 2147483647 := by
      unfold RNG.m at hlt
      omega
    exact_mod_cast this
  norm_num
  constructor <;> [linarith; linarith]

/-- scaleToRange keeps every value of [-1, 1) inside [10, 19]. -/
theorem RNG.scaleToRange_10_19_of_lt_one (v : Rat) (h1 : -1 ≤ v) (h2 : v < 1) :
    10 ≤ RNG.scaleToRange v 10 19 ∧ RNG.scaleToRange v 10 19 ≤ 19 := by
  unfold RNG.scaleToRange
  constructor
  · apply Rat.le_floor.mpr
    push_cast
    linarith
  · have h20 : ¬ (20 : Int) ≤
        Rat.floor ((v + 1) / 2 * (((19 : Int) : Rat) - ((10 : Int) : Rat) + 1) + ((10 : Int) : Rat)) := by
      rw [Rat.le_floor]
      push_cast
      intro hc
      linarith
    omega

/-- In the exact-arithmetic idealization, every hash value strictly below
m - 1 scales into [10, 19].  Whether the hash m - 1 (scale = 1, which would
floor to 20) is ever produced depends on the rounding of IEEE-754 doubles in
the source, which this integer/rational embedding does not model; the claim
about the full RNG output domain is therefore settled outside this file. -/
theorem RNG.scaleToRange_10_19_in_range (h : Nat) (hlt : h < RNG.m - 1) :
    10 ≤ RNG.scaleToRange (RNG.scale h) 10 19 ∧
      RNG.scaleToRange (RNG.scale h) 10 19 ≤ 19 := by
  obtain ⟨h1, h2⟩ := RNG.scale_bounds h hlt
  exact RNG.scaleToRange_10_19_of_lt_one _ h1 h2

/-- C7: EndGameAction leaves a state with no current shape unchanged, and
otherwise sets gameEnd to true exactly when every block of the current
shape satisfies y - height < 0 (its top edge is above row 0). -/
theorem C7_EndGameAction_spec (s : State) :
    (s.currentShape = none → EndGameAction s = s) ∧
    (∀ sh, s.currentShape = some sh →
      EndGameAction s = { s with gameEnd := decide (∀ b ∈ sh.blocks, b.y - b.height < 0) } ∧
      ((EndGameAction s).gameEnd = true ↔ ∀ b ∈ sh.blocks, b.y - b.height < 0)) := by
  constructor
  · intro h
    simp [EndGameAction, h]
  · intro sh h
    constructor
    · simp [EndGameAction, h]
    · simp [EndGameAction, h]

/-- C7 witness: with the initial preview shape (whose stale blocks array is
empty) as current shape, the condition holds vacuously and gameEnd is set. -/
theorem C7_EndGameAction_spec_witness :
    EndGameAction { INITIAL_STATE with currentShape := some initialShape } =
      { { INITIAL_STATE with currentShape := some initialShape } with gameEnd := true } := by
  have h := (C7_EndGameAction_spec { INITIAL_STATE with currentShape := some initialShape }).2
    initialShape rfl
  rw [h.1]
  norm_num [initialShape, createShape]

/-- C10: once gameEnd is set, MoveAction (any movement) and RotateAction
return the state unchanged, because updateStateWithNewShape returns its
input whenever gameEnd holds. -/
theorem C10_gameEnd_freezes_move_and_rotate (s : State) (h : s.gameEnd = true) :
    (∀ movement, MoveAction movement s = s) ∧
    RotateAction s = s ∧
    (∀ newShape, updateStateWithNewShape s newShape = s) := by
  have hu : ∀ newShape, updateStateWithNewShape s newShape = s := by
    intro newShape
    simp [updateStateWithNewShape, h]
  refine ⟨?_, ?_, hu⟩
  · intro movement
    unfold MoveAction
    cases hs : s.currentShape with
    | none => rfl
    | some oldShape => exact hu _
  · unfold RotateAction
    cases hs : s.currentShape with
    | none => rfl
    | some sh => exact hu _

/-- C10 witness: a concrete post-game-over state is left untouched by a left
move and by a rotation. -/
theorem C10_gameEnd_freezes_move_and_rotate_witness :
    MoveAction { deltaX := -20, deltaY := 0 } { INITIAL_STATE with gameEnd := true } =
        { INITIAL_STATE with gameEnd := true } ∧
      RotateAction { INITIAL_STATE with gameEnd := true } =
        { INITIAL_STATE with gameEnd := true } :=
  ⟨(C10_gameEnd_freezes_move_and_rotate { INITIAL_STATE with gameEnd := true } rfl).1 _,
    (C10_gameEnd_freezes_move_and_rotate { INITIAL_STATE with gameEnd := true } rfl).2.1⟩

/-- C8: with gameEnd set and levelUp clear, GameCycleAction restarts: the
result is INITIAL_STATE with score 0, level 1, gameEnd false, and highScore
the maximum of the previous highScore and previous score. -/
theorem C8_GameCycle_restarts_on_gameEnd (s : State) (randomPair : List Rat)
    (hEnd : s.gameEnd = true) (hLvl : s.levelUp = false) :
    GameCycleAction randomPair s =
      { INITIAL_STATE with
        stats := { level := 1, highScore := max s.stats.highScore s.stats.score, score := 0 } } := by
  have hmax : (if s.stats.score < s.stats.highScore then s.stats.highScore else s.stats.score) =
      max s.stats.highScore s.stats.score := by
    split <;> omega
  simp [GameCycleAction, RestartGameAction, hEnd, hLvl, hmax]
  rfl

/-- C8 witness: restarting a finished game at level 3, score 7, highScore 5
yields the initial board with highScore 7. -/
theorem C8_GameCycle_restarts_on_gameEnd_witness :
    GameCycleAction []
        { INITIAL_STATE with
          gameEnd := true
          stats := { level := 3, highScore := 5, score := 7 } } =
      { INITIAL_STATE with stats := { level := 1, highScore := 7, score := 0 } } := by
  have h := C8_GameCycle_restarts_on_gameEnd
    { INITIAL_STATE with
      gameEnd := true
      stats := { level := 3, highScore := 5, score := 7 } }
    [] rfl rfl
  simpa using h

/-- Acceptance condition of updateShape: the candidate is not already fixed
and its freshly rendered blocks pass canUpdate. -/
def acceptedUpdate (s : State) (newShape : Shape) : Prop :=
  newShape.fix = false ∧ canUpdateProp s (renderBlocksFromShape newShape)

instance (s : State) (newShape : Shape) : Decidable (acceptedUpdate s newShape) := by
  unfold acceptedUpdate; infer_instance

/-- Rasterization reads only type, angle, x and y, never blocks or fix. -/
lemma renderBlocksFromShape_set_blocks_fix (sh : Shape) (bs : List SingleBlock) (f : Bool) :
    renderBlocksFromShape { sh with blocks := bs, fix := f } = renderBlocksFromShape sh := rfl

/-- C1: when updateShape accepts a candidate, all blocks of the returned shape
satisfy 0 ≤ x < CANVAS_WIDTH and y < CANVAS_HEIGHT and none coincides with a
fixed block; when it rejects, the previous currentShape is returned. -/
theorem C1_updateShape_accepts_inside_grid (s : State) (newShape : Shape) :
    (acceptedUpdate s newShape →
      ∃ u, updateShape s newShape = some u ∧
        u.blocks = renderBlocksFromShape newShape ∧
        (∀ b ∈ u.blocks, 0 ≤ b.x ∧ b.x < CANVAS_WIDTH ∧ b.y < CANVAS_HEIGHT) ∧
        (∀ b ∈ u.blocks, ∀ b2 ∈ allFixedBlocks s, ¬ (b.x = b2.x ∧ b.y = b2.y))) ∧
    (¬ acceptedUpdate s newShape → updateShape s newShape = s.currentShape) := by
  constructor
  · rintro ⟨hfix, hcan⟩
    refine ⟨{ newShape with
        blocks := renderBlocksFromShape newShape
        fix := decide (isFixProp s (renderBlocksFromShape newShape)) }, ?_, rfl, ?_, ?_⟩
    · unfold updateShape
      rw [if_neg (by simp [hfix]), if_pos hcan]
    · exact fun b hb => hcan.1 b hb
    · rintro b hb b2 hb2 ⟨hx, hy⟩
      exact hcan.2 ⟨b, hb, b2, hb2, hx, hy⟩
  · intro hrej
    by_cases hf : newShape.fix = true
    · simp [updateShape, hf]
    · have hcan : ¬ canUpdateProp s (renderBlocksFromShape newShape) := by
        simp only [Bool.not_eq_true] at hf
        exact fun hc => hrej ⟨hf, hc⟩
      simp [updateShape, hf, hcan]

/-- C1 witness: the initial preview shape dropped into the empty initial
board is accepted, and its rendered blocks respect all the bounds. -/
theorem C1_updateShape_accepts_inside_grid_witness :
    ∃ u, updateShape INITIAL_STATE initialShape = some u ∧
      u.blocks = renderBlocksFromShape initialShape ∧
      (∀ b ∈ u.blocks, 0 ≤ b.x ∧ b.x < CANVAS_WIDTH ∧ b.y < CANVAS_HEIGHT) ∧
      (∀ b ∈ u.blocks, ∀ b2 ∈ allFixedBlocks INITIAL_STATE, ¬ (b.x = b2.x ∧ b.y = b2.y)) :=
  (C1_updateShape_accepts_inside_grid INITIAL_STATE initialShape).1 (by with_unfolding_all decide)

/-- C5 counterexample: already in INITIAL_STATE the next shape carries an
empty blocks array although its rasterization is non-empty, so blocks is not
always the exact rasterization of (type, angle, x, y). -/
theorem C5_initial_nextShape_blocks_stale :
    INITIAL_STATE.nextShape.blocks = [] ∧
    renderBlocksFromShape INITIAL_STATE.nextShape ≠ [] ∧
    INITIAL_STATE.nextShape.blocks ≠ renderBlocksFromShape INITIAL_STATE.nextShape := by
  refine ⟨rfl, ?_, ?_⟩ <;> with_unfolding_all decide

/-- C5 amended: the rasterization invariant holds for the shapes the engine
derives blocks for — every shape accepted by updateShape, and every obstacle
as appended by NextLevel — though not for freshly created current/next
shapes (empty blocks) nor for fixed shapes rewritten by a row clear. -/
theorem C5_blocks_rasterization_where_recomputed (s : State) (newShape : Shape) :
    (acceptedUpdate s newShape →
      ∀ u, updateShape s newShape = some u → u.blocks = renderBlocksFromShape u) ∧
    (∀ (id x y : Int),
      ({ createObstacle id x y with
          blocks := renderBlocksFromShape (createObstacle id x y) } : Shape).blocks =
        renderBlocksFromShape
          { createObstacle id x y with
            blocks := renderBlocksFromShape (createObstacle id x y) }) := by
  constructor
  · rintro ⟨hfix, hcan⟩ u hu
    unfold updateShape at hu
    rw [if_neg (by simp [hfix]), if_pos hcan] at hu
    cases hu
    rfl
  · intro id x y
    rfl

/-- C5 amended witness: the accepted drop of the initial shape comes back
with blocks equal to its own rasterization. -/
theorem C5_blocks_rasterization_where_recomputed_witness :
    ((updateShape INITIAL_STATE initialShape).getD initialShape).blocks =
      renderBlocksFromShape ((updateShape INITIAL_STATE initialShape).getD initialShape) := by
  have h := (C5_blocks_rasterization_where_recomputed INITIAL_STATE initialShape).1
    (by with_unfolding_all decide)
  exact h _ (by with_unfolding_all rfl)

/-- Concrete state ready for a level-up: level 2, score 20, levelUp set. -/
def exampleLevelUpState : State :=
  { INITIAL_STATE with
    levelUp := true
    stats := { level := 2, highScore := 0, score := 20 } }

/-- C4 counterexample: at level 2 with no previous obstacles, NextLevel
appends exactly one obstacle, not level-many as claimed. -/
theorem C4_nextLevel_adds_one_not_level :
    (NextLevelAction [0, 0] exampleLevelUpState).obstacles.length = 1 ∧
    exampleLevelUpState.stats.level = 2 ∧
    exampleLevelUpState.obstacles.length = 0 ∧
    ¬ ((NextLevelAction [0, 0] exampleLevelUpState).obstacles.length =
        exampleLevelUpState.obstacles.length + 2) := by
  refine ⟨?_, rfl, rfl, ?_⟩ <;> with_unfolding_all decide

/-- C4 amended: with levelUp set, NextLevel increments the level, keeps
score and highScore, resets everything else to INITIAL_STATE, and appends
exactly one new obstacle to both obstacles and fixedShapes (which coincide
afterwards). -/
theorem C4_nextLevel_spec (s : State) (randomPair : List Rat) (hLvl : s.levelUp = true) :
    ∃ ob : Shape,
      NextLevelAction randomPair s =
        { INITIAL_STATE with
          stats := { s.stats with level := s.stats.level + 1 }
          fixedShapes := s.obstacles ++ [ob]
          obstacles := s.obstacles ++ [ob] } ∧
      ob.blocks = renderBlocksFromShape ob ∧
      ob.fix = true ∧
      ob.type.name = "Obstacle" := by
  refine ⟨{ createObstacle (-((s.obstacles.length : Int) + 1))
      (RNG.scaleToRange (randomPair.getD 0 0) 0 ((GRID_WIDTH : Int) - 1) * BLOCK_WIDTH)
      (RNG.scaleToRange (randomPair.getD 1 0) ((GRID_HEIGHT : Int) / 2)
        ((GRID_HEIGHT : Int) - 1) * BLOCK_HEIGHT) with
      blocks := renderBlocksFromShape (createObstacle (-((s.obstacles.length : Int) + 1))
        (RNG.scaleToRange (randomPair.getD 0 0) 0 ((GRID_WIDTH : Int) - 1) * BLOCK_WIDTH)
        (RNG.scaleToRange (randomPair.getD 1 0) ((GRID_HEIGHT : Int) / 2)
          ((GRID_HEIGHT : Int) - 1) * BLOCK_HEIGHT)) }, ?_, rfl, rfl, rfl⟩
  unfold NextLevelAction
  rw [if_pos hLvl]
  rfl

/-- C4 amended witness: the level-2 example gains one obstacle and moves to
level 3. -/
theorem C4_nextLevel_spec_witness :
    (NextLevelAction [0, 0] exampleLevelUpState).obstacles.length =
        exampleLevelUpState.obstacles.length + 1 ∧
      (NextLevelAction [0, 0] exampleLevelUpState).stats.level =
        exampleLevelUpState.stats.level + 1 ∧
      (NextLevelAction [0, 0] exampleLevelUpState).fixedShapes =
        (NextLevelAction [0, 0] exampleLevelUpState).obstacles := by
  obtain ⟨ob, heq, hb, hf, hn⟩ := C4_nextLevel_spec exampleLevelUpState [0, 0] rfl
  rw [heq]
  simp

/-- C6: rotation applies the left-wall kick then the right-wall kick in that
order; the left kick translates the shape to x = 0 exactly when its leftmost
block is within one block width of the left edge, and the right kick
translates it so that x + width = CANVAS_WIDTH exactly when its rightmost
block is within one block width of the right edge; RotateAction increments
the angle by 90 mod 360 before kicking. -/
theorem C6_wall_kicks (shape : Shape) :
    rotateKickShape shape = kickShapeRightWall (kickShapeLeftWall shape) ∧
    (((shape.blocks.map (fun b => b.x)).minimum ≤ (BLOCK_WIDTH : WithTop Int) →
        kickShapeLeftWall shape = { shape with x := 0 }) ∧
      (¬ (shape.blocks.map (fun b => b.x)).minimum ≤ (BLOCK_WIDTH : WithTop Int) →
        kickShapeLeftWall shape = shape)) ∧
    ((((CANVAS_WIDTH - 2 * BLOCK_WIDTH : Int) : WithBot Int) ≤
          (shape.blocks.map (fun b => b.x)).maximum →
        kickShapeRightWall shape = { shape with x := CANVAS_WIDTH - shape.width }) ∧
      (¬ ((CANVAS_WIDTH - 2 * BLOCK_WIDTH : Int) : WithBot Int) ≤
          (shape.blocks.map (fun b => b.x)).maximum →
        kickShapeRightWall shape = shape)) ∧
    (∀ (s : State) (sh : Shape), s.currentShape = some sh →
      RotateAction s =
        updateStateWithNewShape s (rotateKickShape { sh with angle := (sh.angle + 90) % 360 })) := by
  refine ⟨rfl, ⟨?_, ?_⟩, ⟨?_, ?_⟩, ?_⟩
  · intro h
    unfold kickShapeLeftWall
    rw [if_pos h]
    have hx : shape.x + -shape.x = 0 := by omega
    rw [hx]
  · intro h
    unfold kickShapeLeftWall
    rw [if_neg h]
  · intro h
    unfold kickShapeRightWall
    rw [if_pos h]
    have hx : shape.x + (CANVAS_WIDTH - (shape.x + shape.width)) = CANVAS_WIDTH - shape.width := by
      omega
    rw [hx]
  · intro h
    unfold kickShapeRightWall
    rw [if_neg h]
  · intro s sh hs
    unfold RotateAction
    rw [hs]

/-- C6 witness: a shape whose leftmost block sits at x = 15 (within one
block width of the left wall) is translated to x = 0 by the left kick, and
a left-central shape is untouched by the right kick. -/
theorem C6_wall_kicks_witness :
    kickShapeLeftWall
        { id := "shapeW"
          x := 15
          y := 0
          angle := 0
          type := { name := "Obstacle", matrix := [[1]], color := "grey" }
          blocks := [{ x := 15, y := 0, width := 20, height := 20 }]
          width := 20
          height := 20
          fix := false } =
      { id := "shapeW"
        x := 0
        y := 0
        angle := 0
        type := { name := "Obstacle", matrix := [[1]], color := "grey" }
        blocks := [{ x := 15, y := 0, width := 20, height := 20 }]
        width := 20
        height := 20
        fix := false } := by
  have h := (C6_wall_kicks
    { id := "shapeW"
      x := 15
      y := 0
      angle := 0
      type := { name := "Obstacle", matrix := [[1]], color := "grey" }
      blocks := [{ x := 15, y := 0, width := 20, height := 20 }]
      width := 20
      height := 20
      fix := false }).2.1.1 (by decide)
  simpa using h

/-! ## Grid lemmas for the Score action (C2) -/

/-- One cell of the logical grid, 0 outside. -/
def cell (g : NumbersMatrix) (r c : Nat) : Int := (g.getD r []).getD c 0

/-- A grid position inside the 10 x 20 board. -/
def InRangePos (p : GridPosition) : Prop :=
  0 ≤ p.x ∧ p.x < (GRID_WIDTH : Int) ∧ 0 ≤ p.y ∧ p.y < (GRID_HEIGHT : Int)

lemma replace_eq_set {α : Type} (l : List α) (a : α) {i : Nat} (h : i < l.length) :
    replace l a i = l.set i a := by
  unfold replace
  rw [List.set_eq_take_append_cons_drop, if_pos h]
  simp

lemma length_replace {α : Type} (l : List α) (a : α) {i : Nat} (h : i < l.length) :
    (replace l a i).length = l.length := by
  rw [replace_eq_set _ _ h]
  simp

lemma getD_replace_self {α : Type} (l : List α) (a d : α) {i : Nat} (h : i < l.length) :
    (replace l a i).getD i d = a := by
  rw [replace_eq_set _ _ h, List.getD_eq_getElem _ _ (by simpa using h), List.getElem_set_self]

lemma getD_replace_ne {α : Type} (l : List α) (a d : α) {i j : Nat} (h : i < l.length)
    (hne : i ≠ j) : (replace l a i).getD j d = l.getD j d := by
  rw [replace_eq_set _ _ h]
  by_cases hj : j < l.length
  · rw [List.getD_eq_getElem _ _ (by simpa using hj), List.getD_eq_getElem _ _ hj,
      List.getElem_set_ne hne]
  · rw [List.getD_eq_default _ _ (by simpa using Nat.le_of_not_lt hj),
      List.getD_eq_default _ _ (Nat.le_of_not_lt hj)]

lemma rect_markPos {g : NumbersMatrix} (hg : Rect GRID_HEIGHT GRID_WIDTH g) {p : GridPosition}
    (hp : InRangePos p) : Rect GRID_HEIGHT GRID_WIDTH (markPos g p) := by
  obtain ⟨hlen, hrow⟩ := hg
  obtain ⟨hpx0, hpx1, hpy0, hpy1⟩ := hp
  have hy : p.y.toNat < g.length := by
    rw [hlen]
    omega
  constructor
  · rw [markPos, length_replace _ _ hy, hlen]
  · intro row hr
    rw [markPos, replace_eq_set _ _ hy] at hr
    rcases List.mem_or_eq_of_mem_set hr with hmem | rfl
    · exact hrow _ hmem
    · have hxr : p.x.toNat < (g.getD p.y.toNat []).length := by
        rw [hrow _ (getD_mem_of_lt g [] hy)]
        omega
      rw [length_replace _ _ hxr]
      exact hrow _ (getD_mem_of_lt g [] hy)

lemma cell_markPos {g : NumbersMatrix} (hg : Rect GRID_HEIGHT GRID_WIDTH g) {p : GridPosition}
    (hp : InRangePos p) {r c : Nat} (hr : r < GRID_HEIGHT) (hc : c < GRID_WIDTH) :
    cell (markPos g p) r c = if p.x.toNat = c ∧ p.y.toNat = r then 1 else cell g r c := by
  obtain ⟨hlen, hrow⟩ := hg
  obtain ⟨hpx0, hpx1, hpy0, hpy1⟩ := hp
  have hy : p.y.toNat < g.length := by
    rw [hlen]
    omega
  have hrowlen : (g.getD p.y.toNat []).length = GRID_WIDTH :=
    hrow _ (getD_mem_of_lt g [] hy)
  have hx : p.x.toNat < (g.getD p.y.toNat []).length := by
    rw [hrowlen]
    omega
  by_cases hyr : p.y.toNat = r
  · subst hyr
    unfold cell markPos
    rw [getD_replace_self _ _ _ hy]
    by_cases hxc : p.x.toNat = c
    · subst hxc
      rw [getD_replace_self _ _ _ hx, if_pos ⟨rfl, rfl⟩]
    · rw [getD_replace_ne _ _ _ hx hxc, if_neg (fun hcontra => hxc hcontra.1)]
  · unfold cell markPos
    rw [getD_replace_ne _ _ _ hy hyr, if_neg (fun hcontra => hyr hcontra.2)]

lemma rect_updateGrid (ps : List GridPosition) :
    ∀ g : NumbersMatrix, Rect GRID_HEIGHT GRID_WIDTH g → (∀ p ∈ ps, InRangePos p) →
      Rect GRID_HEIGHT GRID_WIDTH (updateGrid g ps) := by
  induction ps with
  | nil => intro g hg _; exact hg
  | cons p ps ih =>
    intro g hg hin
    rw [updateGrid, List.foldl_cons]
    exact ih _ (rect_markPos hg (hin p (List.mem_cons_self _ _))) (fun q hq => hin q (List.mem_cons_of_mem _ hq))

lemma cell_updateGrid (ps : List GridPosition) :
    ∀ g : NumbersMatrix, Rect GRID_HEIGHT GRID_WIDTH g → (∀ p ∈ ps, InRangePos p) →
      ∀ r c : Nat, r < GRID_HEIGHT → c < GRID_WIDTH →
        cell (updateGrid g ps) r c =
          if ∃ p ∈ ps, p.x.toNat = c ∧ p.y.toNat = r then 1 else cell g r c := by
  induction ps with
  | nil =>
    intro g hg _ r c hr hc
    simp [updateGrid]
  | cons p ps ih =>
    intro g hg hin r c hr hc
    rw [updateGrid, List.foldl_cons]
    have hstep := cell_markPos hg (hin p (List.mem_cons_self _ _)) hr hc
    have hrec := ih (markPos g p) (rect_markPos hg (hin p (List.mem_cons_self _ _)))
      (fun q hq => hin q (List.mem_cons_of_mem _ hq)) r c hr hc
    rw [updateGrid] at hrec
    rw [hrec, hstep]
    by_cases hex : ∃ q ∈ ps, q.x.toNat = c ∧ q.y.toNat = r
    · rw [if_pos hex, if_pos]
      obtain ⟨q, hq, hqc⟩ := hex
      exact ⟨q, List.mem_cons_of_mem _ hq, hqc⟩
    · rw [if_neg hex]
      by_cases hp : p.x.toNat = c ∧ p.y.toNat = r
      · rw [if_pos hp, if_pos ⟨p, List.mem_cons_self _ _, hp⟩]
      · rw [if_neg hp, if_neg]
        rintro ⟨q, hq, hqc⟩
        rcases List.mem_cons.mp hq with rfl | hq2
        · exact hp hqc
        · exact hex ⟨q, hq2, hqc⟩

lemma rect_emptyGrid :
    Rect GRID_HEIGHT GRID_WIDTH (List.replicate GRID_HEIGHT (List.replicate GRID_WIDTH (0 : Int))) := by
  constructor
  · simp
  · intro row hr
    rw [List.eq_of_mem_replicate hr]
    simp

lemma getD_replicate_zero (n c : Nat) : (List.replicate n (0 : Int)).getD c 0 = 0 := by
  by_cases hc : c < n
  · rw [List.getD_eq_getElem _ _ (by simpa using hc), List.getElem_replicate]
  · rw [List.getD_eq_default _ _ (by simpa using Nat.le_of_not_lt hc)]

lemma cell_emptyGrid (r c : Nat) :
    cell (List.replicate GRID_HEIGHT (List.replicate GRID_WIDTH (0 : Int))) r c = 0 := by
  unfold cell
  by_cases hr : r < GRID_HEIGHT
  · have h1 : (List.replicate GRID_HEIGHT (List.replicate GRID_WIDTH (0 : Int))).getD r [] =
        List.replicate GRID_WIDTH (0 : Int) := by
      rw [List.getD_eq_getElem _ _ (by simpa using hr)]
      exact List.getElem_replicate _ _
    rw [h1, getD_replicate_zero]
  · have h1 : (List.replicate GRID_HEIGHT (List.replicate GRID_WIDTH (0 : Int))).getD r [] =
        ([] : List Int) := by
      rw [List.getD_eq_default _ _ (by simpa using Nat.le_of_not_lt hr)]
    rw [h1]
    rfl

lemma findFullRows_foldl (g : NumbersMatrix) : ∀ (n : Nat) (acc : List Nat),
    (List.enumFrom n g).foldl
        (fun accArray p => if p.2.all (fun c => c == 1) then accArray ++ [p.1] else accArray) acc =
      acc ++ ((List.range g.length).filter
        (fun i => (g.getD i []).all (fun c => c == 1))).map (fun i => i + n) := by
  induction g with
  | nil =>
    intro n acc
    simp
  | cons row rest ih =>
    intro n acc
    simp only [List.enumFrom_cons, List.foldl_cons]
    rw [ih (n + 1)]
    have hrange : List.range (row :: rest).length = 0 :: (List.range rest.length).map Nat.succ := by
      rw [show (row :: rest).length = rest.length + 1 from rfl, List.range_succ_eq_map]
    rw [hrange, List.filter_cons]
    simp only [List.getD_cons_zero]
    have hfilter : ((List.range rest.length).map Nat.succ).filter
        (fun i => ((row :: rest).getD i []).all (fun c => c == 1)) =
        ((List.range rest.length).filter
          (fun i => (rest.getD i []).all (fun c => c == 1))).map Nat.succ := by
      rw [List.filter_map]
      congr 1
    rw [hfilter]
    have hmapmap :
        (((List.range rest.length).filter
            (fun i => (rest.getD i []).all (fun c => c == 1))).map Nat.succ).map (fun i => i + n) =
          ((List.range rest.length).filter
            (fun i => (rest.getD i []).all (fun c => c == 1))).map (fun i => i + (n + 1)) := by
      rw [List.map_map]
      apply List.map_congr_left
      intro i hi
      simp only [Function.comp]
      omega
    by_cases hrow : row.all (fun c => c == 1) = true
    · rw [if_pos hrow, if_pos hrow, List.map_cons, hmapmap, List.append_assoc]
      simp
    · rw [if_neg hrow, if_neg hrow, hmapmap]

lemma findFullRows_eq_filter (g : NumbersMatrix) :
    findFullRowsOfGrid g =
      (List.range g.length).filter (fun i => (g.getD i []).all (fun c => c == 1)) := by
  unfold findFullRowsOfGrid
  have h := findFullRows_foldl g 0 []
  rw [show g.enum = List.enumFrom 0 g from rfl]
  simpa using h

lemma filter_range_unique (n : Nat) (p : Nat → Bool) (r0 : Nat) (hr0 : r0 < n)
    (hp : p r0 = true) (huniq : ∀ r, r < n → p r = true → r = r0) :
    (List.range n).filter p = [r0] := by
  induction n with
  | zero => omega
  | succ k ih =>
    rw [List.range_succ, List.filter_append]
    by_cases hk : r0 = k
    · subst hk
      have hnone : (List.range r0).filter p = [] := by
        rw [List.filter_eq_nil_iff]
        intro a ha
        rw [List.mem_range] at ha
        intro hpa
        have := huniq a (by omega) hpa
        omega
      rw [hnone]
      simp [hp]
    · have hr0k : r0 < k := by omega
      have hpk : ¬ p k = true := by
        intro hpk
        have := huniq k (by omega) hpk
        omega
      rw [ih hr0k (fun r hr hpr => huniq r (by omega) hpr)]
      simp [hpk]

lemma row_all_iff {g : NumbersMatrix} (hg : Rect GRID_HEIGHT GRID_WIDTH g) {r : Nat}
    (hr : r < GRID_HEIGHT) :
    ((g.getD r []).all (fun c => c == 1) = true) ↔
      ∀ c, c < GRID_WIDTH → cell g r c = 1 := by
  have hrl : r < g.length := by rw [hg.1]; exact hr
  have hlen : (g.getD r []).length = GRID_WIDTH := hg.2 _ (getD_mem_of_lt g [] hrl)
  rw [List.all_eq_true]
  constructor
  · intro h c hc
    have hcl : c < (g.getD r []).length := by rw [hlen]; exact hc
    have hmem : (g.getD r []).getD c 0 ∈ g.getD r [] := getD_mem_of_lt _ _ hcl
    have := h _ hmem
    unfold cell
    simpa using this
  · intro h x hx
    obtain ⟨c, hc, rfl⟩ := List.mem_iff_getElem.mp hx
    have hcw : c < GRID_WIDTH := by rw [← hlen]; exact hc
    have hcell := h c hcw
    unfold cell at hcell
    rw [List.getD_eq_getElem _ _ hc] at hcell
    simpa using hcell

/-- Row r of the logical grid is fully occupied by fixed blocks. -/
def rowFullForBlocks (s : State) (r : Nat) : Prop :=
  ∀ c : Nat, c < GRID_WIDTH →
    ∃ b ∈ allFixedBlocks s, b.x = (c : Int) * 20 ∧ b.y = (r : Int) * 20

/-- Every fixed block is a 20 x 20 block aligned on the 10 x 20 grid. -/
def BlocksWellFormed (s : State) : Prop :=
  ∀ b ∈ allFixedBlocks s, b.width = 20 ∧ b.height = 20 ∧
    ∃ gx < GRID_WIDTH, ∃ gy < GRID_HEIGHT, b.x = (gx : Int) * 20 ∧ b.y = (gy : Int) * 20

lemma positions_inRange (s : State) (hW : BlocksWellFormed s) :
    ∀ p ∈ getGridPositionsFromState s, InRangePos p := by
  intro p hp
  unfold getGridPositionsFromState at hp
  rw [List.mem_map] at hp
  obtain ⟨b, hb, rfl⟩ := hp
  obtain ⟨hw, hh, gx, hgx, gy, hgy, hbx, hby⟩ := hW b hb
  have hx : b.x / BLOCK_WIDTH = (gx : Int) := by
    rw [hbx]
    unfold BLOCK_WIDTH
    exact Int.mul_ediv_cancel _ (by norm_num)
  have hy : b.y / BLOCK_HEIGHT = (gy : Int) := by
    rw [hby]
    unfold BLOCK_HEIGHT
    exact Int.mul_ediv_cancel _ (by norm_num)
  refine ⟨?_, ?_, ?_, ?_⟩ <;> simp only [hx, hy] <;> omega

lemma pos_exists_iff (s : State) (hW : BlocksWellFormed s) (r c : Nat) :
    (∃ p ∈ getGridPositionsFromState s, p.x.toNat = c ∧ p.y.toNat = r) ↔
      ∃ b ∈ allFixedBlocks s, b.x = (c : Int) * 20 ∧ b.y = (r : Int) * 20 := by
  constructor
  · rintro ⟨p, hp, hpc, hpr⟩
    unfold getGridPositionsFromState at hp
    rw [List.mem_map] at hp
    obtain ⟨b, hb, rfl⟩ := hp
    obtain ⟨hw, hh, gx, hgx, gy, hgy, hbx, hby⟩ := hW b hb
    have hx : b.x / BLOCK_WIDTH = (gx : Int) := by
      rw [hbx]
      unfold BLOCK_WIDTH
      exact Int.mul_ediv_cancel _ (by norm_num)
    have hy : b.y / BLOCK_HEIGHT = (gy : Int) := by
      rw [hby]
      unfold BLOCK_HEIGHT
      exact Int.mul_ediv_cancel _ (by norm_num)
    simp only [hx, hy, Int.toNat_natCast] at hpc hpr
    refine ⟨b, hb, ?_, ?_⟩
    · rw [hbx, hpc]
    · rw [hby, hpr]
  · rintro ⟨b, hb, hbx, hby⟩
    refine ⟨{ x := b.x / BLOCK_WIDTH, y := b.y / BLOCK_HEIGHT }, ?_, ?_, ?_⟩
    · unfold getGridPositionsFromState
      rw [List.mem_map]
      exact ⟨b, hb, rfl⟩
    · show (b.x / BLOCK_WIDTH).toNat = c
      rw [hbx]
      unfold BLOCK_WIDTH
      rw [Int.mul_ediv_cancel _ (by norm_num)]
      exact Int.toNat_natCast c
    · show (b.y / BLOCK_HEIGHT).toNat = r
      rw [hby]
      unfold BLOCK_HEIGHT
      rw [Int.mul_ediv_cancel _ (by norm_num)]
      exact Int.toNat_natCast r

lemma fullRows_eq_single (s : State) (hW : BlocksWellFormed s) (r0 : Nat)
    (hr0 : r0 < GRID_HEIGHT) (hFull : rowFullForBlocks s r0)
    (hUniq : ∀ r, r < GRID_HEIGHT → rowFullForBlocks s r → r = r0) :
    findFullRowsOfGrid
        (constructGrid GRID_WIDTH GRID_HEIGHT (getGridPositionsFromState s)) = [r0] := by
  have hin : ∀ p ∈ getGridPositionsFromState s, InRangePos p := positions_inRange s hW
  have hrect : Rect GRID_HEIGHT GRID_WIDTH
      (constructGrid GRID_WIDTH GRID_HEIGHT (getGridPositionsFromState s)) :=
    rect_updateGrid _ _ rect_emptyGrid hin
  have hcellfull : ∀ r, r < GRID_HEIGHT →
      (((constructGrid GRID_WIDTH GRID_HEIGHT (getGridPositionsFromState s)).getD r []).all
          (fun c => c == 1) = true ↔ rowFullForBlocks s r) := by
    intro r hr
    rw [row_all_iff hrect hr]
    constructor
    · intro h c hc
      have := h c hc
      rw [show constructGrid GRID_WIDTH GRID_HEIGHT (getGridPositionsFromState s) =
          updateGrid (List.replicate GRID_HEIGHT (List.replicate GRID_WIDTH 0))
            (getGridPositionsFromState s) from rfl,
        cell_updateGrid _ _ rect_emptyGrid hin r c hr hc] at this
      by_cases hex : ∃ p ∈ getGridPositionsFromState s, p.x.toNat = c ∧ p.y.toNat = r
      · exact (pos_exists_iff s hW r c).mp hex
      · rw [if_neg hex, cell_emptyGrid] at this
        exact absurd this (by norm_num)
    · intro h c hc
      rw [show constructGrid GRID_WIDTH GRID_HEIGHT (getGridPositionsFromState s) =
          updateGrid (List.replicate GRID_HEIGHT (List.replicate GRID_WIDTH 0))
            (getGridPositionsFromState s) from rfl,
        cell_updateGrid _ _ rect_emptyGrid hin r c hr hc]
      rw [if_pos ((pos_exists_iff s hW r c).mpr (h c hc))]
  rw [findFullRows_eq_filter, hrect.1]
  apply filter_range_unique GRID_HEIGHT _ r0 hr0
  · exact (hcellfull r0 hr0).mpr hFull
  · intro r hr hpr
    exact hUniq r hr ((hcellfull r hr).mp hpr)

/-- Total number of fixed blocks in a state. -/
def totalBlocks (s : State) : Nat := (allFixedBlocks s).length

lemma count_row_blocks (s : State) (hW : BlocksWellFormed s)
    (hNodup : ((allFixedBlocks s).map (fun b => (b.x, b.y))).Nodup)
    (r0 : Nat) (hFull : rowFullForBlocks s r0) :
    ((allFixedBlocks s).filter (fun b => b.y == (r0 : Int) * 20)).length = GRID_WIDTH := by
  have hpairs : (((allFixedBlocks s).filter (fun b => b.y == (r0 : Int) * 20)).map
      (fun b => (b.x, b.y))).Nodup :=
    List.Nodup.sublist (List.Sublist.map _ (List.filter_sublist _)) hNodup
  have hxsnodup : (((allFixedBlocks s).filter (fun b => b.y == (r0 : Int) * 20)).map
      (fun b => b.x)).Nodup := by
    have heq : ((allFixedBlocks s).filter (fun b => b.y == (r0 : Int) * 20)).map
        (fun b => b.x) =
        (((allFixedBlocks s).filter (fun b => b.y == (r0 : Int) * 20)).map
          (fun b => (b.x, b.y))).map Prod.fst := by
      rw [List.map_map]
      rfl
    rw [heq]
    apply List.Nodup.map_on ?_ hpairs
    intro p hp q hq hfst
    rw [List.mem_map] at hp hq
    obtain ⟨b, hb, rfl⟩ := hp
    obtain ⟨b2, hb2, rfl⟩ := hq
    rw [List.mem_filter] at hb hb2
    have hby : b.y = (r0 : Int) * 20 := by simpa using hb.2
    have hb2y : b2.y = (r0 : Int) * 20 := by simpa using hb2.2
    simp only at hfst
    simp only [Prod.mk.injEq]
    exact ⟨hfst, by rw [hby, hb2y]⟩
  have hxsub : ∀ x ∈ ((allFixedBlocks s).filter (fun b => b.y == (r0 : Int) * 20)).map
      (fun b => b.x), ∃ cc, cc < GRID_WIDTH ∧ x = (cc : Int) * 20 := by
    intro x hx
    rw [List.mem_map] at hx
    obtain ⟨b, hb, rfl⟩ := hx
    rw [List.mem_filter] at hb
    obtain ⟨hw, hh, gx, hgx, gy, hgy, hbx, hby⟩ := hW b hb.1
    exact ⟨gx, hgx, hbx⟩
  have hxall : ∀ cc : Nat, cc < GRID_WIDTH →
      ((cc : Int) * 20) ∈ ((allFixedBlocks s).filter (fun b => b.y == (r0 : Int) * 20)).map
        (fun b => b.x) := by
    intro cc hcc
    obtain ⟨b, hb, hbx, hby⟩ := hFull cc hcc
    rw [List.mem_map]
    refine ⟨b, ?_, hbx⟩
    rw [List.mem_filter]
    exact ⟨hb, by simp [hby]⟩
  have hfin : (((allFixedBlocks s).filter (fun b => b.y == (r0 : Int) * 20)).map
      (fun b => b.x)).toFinset =
      (Finset.range GRID_WIDTH).image (fun cc : Nat => (cc : Int) * 20) := by
    ext x
    simp only [List.mem_toFinset, Finset.mem_image, Finset.mem_range]
    constructor
    · intro hx
      obtain ⟨cc, hcc, rfl⟩ := hxsub x hx
      exact ⟨cc, hcc, rfl⟩
    · rintro ⟨cc, hcc, rfl⟩
      exact hxall cc hcc
  have hinj : Function.Injective (fun cc : Nat => (cc : Int) * 20) := by
    intro a b hab
    simp only at hab
    have : (a : Int) = (b : Int) := by
      have h20 : (20 : Int) ≠ 0 := by norm_num
      exact mul_right_cancel₀ h20 hab
    exact_mod_cast this
  have hcard1 := List.toFinset_card_of_nodup hxsnodup
  have hcard2 : ((Finset.range GRID_WIDTH).image (fun cc : Nat => (cc : Int) * 20)).card =
      GRID_WIDTH := by
    rw [Finset.card_image_of_injective _ hinj, Finset.card_range]
  have hlenmap : (((allFixedBlocks s).filter (fun b => b.y == (r0 : Int) * 20)).map
      (fun b => b.x)).length =
      ((allFixedBlocks s).filter (fun b => b.y == (r0 : Int) * 20)).length := by
    rw [List.length_map]
  rw [← hlenmap, ← hcard1, hfin, hcard2]

lemma contains_singleton (y0 y : Int) : ([y0].contains y) = (y == y0) := by
  by_cases h : y = y0 <;> simp [List.contains, h]

lemma filter_singleton_length (y0 y : Int) :
    ([y0].filter (fun r => decide (y < r))).length = if y < y0 then 1 else 0 := by
  by_cases h : y < y0
  · simp [List.filter, h]
  · simp [List.filter, h]

/-- The pixel y coordinates of the cleared rows computed by ScoreAction. -/
def clearedRowYs (t : State) : List Int :=
  (findFullRowsOfGrid
      (constructGrid GRID_WIDTH GRID_HEIGHT (getGridPositionsFromState t))).map
    (fun index => (Int.ofNat index) * BLOCK_HEIGHT)

lemma totalBlocks_after (L : List Shape) (q : SingleBlock → Bool) (g : SingleBlock → SingleBlock) :
    ((L.map (fun sh => { sh with blocks := (sh.blocks.filter q).map g })).flatMap
      (fun sh => sh.blocks)).length = List.countP q (L.flatMap (fun sh => sh.blocks)) := by
  induction L with
  | nil => rfl
  | cons sh L ih =>
    simp only [List.map_cons, List.flatMap_cons, List.length_append, List.length_map, ih,
      List.countP_append]
    have hc := List.countP_eq_length_filter q sh.blocks
    omega

/-- C2: on a state whose fixed blocks are well formed, have pairwise distinct
positions, and fill exactly one row r0, the Score action adds exactly level
to the score (1 row x level), removes exactly GRID_WIDTH = 10 blocks, and
rewrites the blocks of each shape by dropping the blocks on the cleared row and
shifting each surviving block above it down by one block height (20), while
blocks below the cleared row keep their position.  The last two conjuncts
state the general law for every state: the score increment equals
(number of cleared rows) x level, and each surviving block shifts down by
its height times the number of cleared rows strictly below it. -/
theorem C2_score_single_row_clear (s : State) (r0 : Nat)
    (hW : BlocksWellFormed s)
    (hNodup : ((allFixedBlocks s).map (fun b => (b.x, b.y))).Nodup)
    (hr0 : r0 < GRID_HEIGHT)
    (hFull : rowFullForBlocks s r0)
    (hUniq : ∀ r, r < GRID_HEIGHT → rowFullForBlocks s r → r = r0) :
    (ScoreAction s).stats.score = s.stats.score + s.stats.level ∧
    (ScoreAction s).stats.level = s.stats.level ∧
    (ScoreAction s).stats.highScore = s.stats.highScore ∧
    totalBlocks (ScoreAction s) + GRID_WIDTH = totalBlocks s ∧
    (ScoreAction s).fixedShapes = s.fixedShapes.map (fun sh =>
      { sh with blocks := ((sh.blocks.filter (fun b => !(b.y == (r0 : Int) * 20))).map
          (fun b : SingleBlock =>
            if b.y < (r0 : Int) * 20 then { b with y := b.y + 20 } else b)) }) ∧
    (∀ t : State, (ScoreAction t).stats.score =
      t.stats.score + ((clearedRowYs t).length : Int) * t.stats.level) ∧
    (∀ t : State, (ScoreAction t).fixedShapes = t.fixedShapes.map (fun sh =>
      { sh with blocks := (((sh.blocks.filter
            (fun b => !((clearedRowYs t).contains b.y))).map
          (fun b : SingleBlock => { b with y := (b.y + b.height *
            (((clearedRowYs t).filter (fun r => decide (b.y < r))).length : Int)) }))) })) := by
  have hrows := fullRows_eq_single s hW r0 hr0 hFull hUniq
  have hscore0 : (ScoreAction s).stats.score = s.stats.score +
      (((findFullRowsOfGrid
          (constructGrid GRID_WIDTH GRID_HEIGHT (getGridPositionsFromState s))).map
        (fun index => (Int.ofNat index) * BLOCK_HEIGHT)).length : Int) * s.stats.level := rfl
  have hfix0 : (ScoreAction s).fixedShapes = s.fixedShapes.map (fun shape =>
      { shape with blocks := ((shape.blocks.filter (fun b =>
          !(((findFullRowsOfGrid
              (constructGrid GRID_WIDTH GRID_HEIGHT (getGridPositionsFromState s))).map
            (fun index => (Int.ofNat index) * BLOCK_HEIGHT)).contains b.y))).map
        (fun block => { block with y := (block.y + block.height *
          ((((findFullRowsOfGrid
              (constructGrid GRID_WIDTH GRID_HEIGHT (getGridPositionsFromState s))).map
            (fun index => (Int.ofNat index) * BLOCK_HEIGHT)).filter
              (fun clearRow => decide (block.y < clearRow))).length : Int)) })) }) := rfl
  rw [hrows] at hscore0 hfix0
  simp only [List.map_cons, List.map_nil, List.length_cons, List.length_nil,
    Int.ofNat_eq_natCast] at hscore0 hfix0
  have hBH : (BLOCK_HEIGHT : Int) = 20 := rfl
  rw [hBH] at hfix0
  have hfix : (ScoreAction s).fixedShapes = s.fixedShapes.map (fun sh =>
      { sh with blocks := ((sh.blocks.filter (fun b => !(b.y == (r0 : Int) * 20))).map
          (fun b : SingleBlock =>
            if b.y < (r0 : Int) * 20 then { b with y := b.y + 20 } else b)) }) := by
    rw [hfix0]
    apply List.map_congr_left
    intro sh hsh
    have hfilter : sh.blocks.filter (fun b => !([(r0 : Int) * 20].contains b.y)) =
        sh.blocks.filter (fun b => !(b.y == (r0 : Int) * 20)) := by
      apply List.filter_congr
      intro b hb
      rw [contains_singleton]
    rw [hfilter]
    have hmap : (sh.blocks.filter (fun b => !(b.y == (r0 : Int) * 20))).map
        (fun block => { block with y := block.y + block.height *
          ((([(r0 : Int) * 20].filter (fun clearRow => decide (block.y < clearRow))).length :
            Int)) }) =
        (sh.blocks.filter (fun b => !(b.y == (r0 : Int) * 20))).map
          (fun b => if b.y < (r0 : Int) * 20 then { b with y := b.y + 20 } else b) := by
      apply List.map_congr_left
      intro b hb
      have hbmem : b ∈ allFixedBlocks s := by
        rw [List.mem_filter] at hb
        exact List.mem_flatMap.mpr ⟨sh, hsh, hb.1⟩
      obtain ⟨hbw, hbh, _⟩ := hW b hbmem
      rw [filter_singleton_length]
      by_cases hlt : b.y < (r0 : Int) * 20
      · rw [if_pos hlt, if_pos hlt]
        simp [hbh]
      · rw [if_neg hlt, if_neg hlt]
        simp
    rw [hmap]
  refine ⟨?_, rfl, rfl, ?_, hfix, fun t => rfl, fun t => rfl⟩
  · rw [hscore0]
    push_cast
    ring
  · have htot : totalBlocks (ScoreAction s) =
        List.countP (fun b => !(b.y == (r0 : Int) * 20)) (allFixedBlocks s) := by
      unfold totalBlocks allFixedBlocks
      rw [hfix]
      exact totalBlocks_after s.fixedShapes _ _
    have hsplit := List.length_eq_countP_add_countP (fun b => !(b.y == (r0 : Int) * 20))
      (allFixedBlocks s)
    have hcompl : List.countP (fun b : SingleBlock =>
        decide ¬((!(b.y == (r0 : Int) * 20)) = true))
        (allFixedBlocks s) = List.countP (fun b => b.y == (r0 : Int) * 20)
          (allFixedBlocks s) := by
      apply List.countP_congr
      intro b hb
      by_cases h : b.y = (r0 : Int) * 20 <;> simp [h]
    have hrowcount : List.countP (fun b => b.y == (r0 : Int) * 20) (allFixedBlocks s) =
        GRID_WIDTH := by
      rw [List.countP_eq_length_filter]
      exact count_row_blocks s hW hNodup r0 hFull
    have hgoal : totalBlocks s = (allFixedBlocks s).length := rfl
    rw [htot, hgoal]
    omega

instance (s : State) (r : Nat) : Decidable (rowFullForBlocks s r) := by
  unfold rowFullForBlocks; infer_instance

instance (s : State) : Decidable (BlocksWellFormed s) := by
  unfold BlocksWellFormed; infer_instance

/-- Concrete state whose bottom row (row 19) is fully occupied by ten blocks,
with one extra block above it at (0, 360), at level 2. -/
def exampleFullRowState : State :=
  { INITIAL_STATE with
    fixedShapes := [{
      id := "shapeF"
      x := 0
      y := 360
      angle := 0
      type := { name := "Obstacle", matrix := [[1]], color := "grey" }
      blocks := [{ x := 0, y := 360, width := 20, height := 20 },
        { x := 0, y := 380, width := 20, height := 20 },
        { x := 20, y := 380, width := 20, height := 20 },
        { x := 40, y := 380, width := 20, height := 20 },
        { x := 60, y := 380, width := 20, height := 20 },
        { x := 80, y := 380, width := 20, height := 20 },
        { x := 100, y := 380, width := 20, height := 20 },
        { x := 120, y := 380, width := 20, height := 20 },
        { x := 140, y := 380, width := 20, height := 20 },
        { x := 160, y := 380, width := 20, height := 20 },
        { x := 180, y := 380, width := 20, height := 20 }]
      width := 200
      height := 40
      fix := true }]
    stats := { level := 2, highScore := 0, score := 0 } }

/-- C2 witness: clearing the full bottom row of the example state adds
level = 2 to the score and removes exactly 10 of the 11 blocks. -/
theorem C2_score_single_row_clear_witness :
    (ScoreAction exampleFullRowState).stats.score =
        exampleFullRowState.stats.score + exampleFullRowState.stats.level ∧
      totalBlocks (ScoreAction exampleFullRowState) + GRID_WIDTH =
        totalBlocks exampleFullRowState := by
  have h := C2_score_single_row_clear exampleFullRowState 19
    (by decide) (by decide) (by decide) (by decide) (by decide)
  exact ⟨h.1, h.2.2.2.1⟩
